import Mathlib

/-!
Shallow embedding of the API-interaction layer of the test-codeql client
scripts: the file publisher (push-workflow script), the dispatch trigger
(trigger-codeql script) and the workflow manager (workflow-manager.js).
Each definition is translated from the corresponding source lines; the
theorems settle the specification claims about them.
-/

/-- A JSON value, the shape of payloads parsed by the transport. -/
inductive Json where
  | null
  | bool (b : Bool)
  | num (n : Int)
  | str (s : String)
  | arr (elems : List Json)
  | obj (fields : List (String × Json))

/-- Field lookup on a JSON object field list: the JS property read
`o[key]`, returning none for a missing property (undefined). -/
def lookupField : List (String × Json) → String → Option Json
  | [], _ => none
  | (k, v) :: rest, key => if k = key then some v else lookupField rest key

/-- Property read `j.key` on an arbitrary JSON value: only objects
carry fields, every other value yields undefined (none). -/
def jsonField (j : Json) (key : String) : Option Json :=
  match j with
  | .obj fields => lookupField fields key
  | _ => none

/-! ## File publisher (push-workflow script)

The existence check and the create-or-update request of `pushWorkflow`.
-/

/-- The data returned by the contents GET for an existing file; the
script only ever reads the `sha` field (the concurrency token). -/
structure ContentData where
  sha : String
deriving DecidableEq

/-- An error raised by a network call of the publisher: a transport
failure carries no HTTP status, an API failure carries status and body. -/
inductive ResolveError where
  | transport (message : String)
  | api (status : Nat) (body : String)
deriving DecidableEq

/-- The catch block around `octokit.rest.repos.getContent` in
`pushWorkflow` (source lines 52-68): a successful GET keeps the data as
the existing file, an error with status 404 sets `existingFile = null`
and continues (the create path), any other error is rethrown. -/
def resolveExisting (r : Except ResolveError ContentData) :
    Except ResolveError (Option ContentData) :=
  match r with
  | .ok d => .ok (some d)
  | .error (.api s b) => if s = 404 then .ok none else .error (.api s b)
  | .error (.transport m) => .error (.transport m)

/-- The `requestData` object passed to `createOrUpdateFileContents`
(source lines 70-85): fixed coordinates, a message chosen by whether the
file existed, the base64 content, and a `sha` field added exactly when
an existing file was found. -/
structure RequestData where
  owner : String
  repo : String
  path : String
  message : String
  content : String
  branch : String
  sha : Option String
deriving DecidableEq

/-- Builds `requestData` from the resolved existing file and the base64
content, as in `pushWorkflow` lines 70-85. -/
def buildRequestData (existingFile : Option ContentData) (contentBase64 : String) :
    RequestData :=
  { owner := "akhilesh1207"
    repo := "test-codeql"
    path := ".github/workflows/codeql-manual.yml"
    message := if existingFile.isSome
      then "Update CodeQL manual trigger workflow"
      else "Add CodeQL manual trigger workflow"
    content := contentBase64
    branch := "main"
    sha := existingFile.map ContentData.sha }

/-- A network call issued by the publisher, in order of issue. -/
inductive NetEvent where
  | getContent
  | putContents (payload : RequestData)
deriving DecidableEq

/-- The network behaviour of `pushWorkflow` (source lines 52-96) with the
responses of the two remote calls injected: first the contents GET is
issued and classified by `resolveExisting`; only if that succeeds is the
PUT issued with the built `requestData`. Returns the trace of issued
calls together with the outcome. -/
def pushWorkflowRun {α : Type} (resolveResp : Except ResolveError ContentData)
    (contentBase64 : String) (put : RequestData → Except ResolveError α) :
    List NetEvent × Except ResolveError α :=
  match resolveExisting resolveResp with
  | .error e => ([NetEvent.getContent], .error e)
  | .ok existingFile =>
      let rd := buildRequestData existingFile contentBase64
      ([NetEvent.getContent, NetEvent.putContents rd], put rd)

/-! ## HTTP transport (workflow-manager.js, makeRequest)

The response-completion handler of `makeRequest` and the headers it
sends. JSON.parse is an external runtime facility: it is taken as a
parameter `parse` returning some parsed value or none when the text does
not parse (JSON.parse throws).
-/

/-- The error a rejected request carries: the template
`HTTP status: body` keeps both the status and the raw body. -/
structure ApiError where
  status : Nat
  body : String
deriving DecidableEq

/-- The message string of the Error constructed on a non-2xx response,
`HTTP status: body` (workflow-manager.js line 61). -/
def apiErrorMessage (e : ApiError) : String :=
  "HTTP " ++ toString e.status ++ ": " ++ e.body

/-- The resolved value of `makeRequest`: the status code and the data,
which is either a parsed JSON value or the raw response text. -/
inductive BodyVal where
  | json (j : Json)
  | text (s : String)

/-- The `{ statusCode, data }` object `makeRequest` resolves with. -/
structure HttpResult where
  statusCode : Nat
  data : BodyVal

/-- The `res.on(end)` handler of `makeRequest` (workflow-manager.js
lines 52-63): a 2xx status resolves, with the data being the empty
object for an empty body (the body is falsy, so JSON.parse is never
called), the parse result for a parseable body, and the raw text when
JSON.parse throws; a non-2xx status rejects with an error carrying the
status and the raw body. -/
def handleResponse (parse : String → Option Json) (statusCode : Nat)
    (responseData : String) : Except ApiError HttpResult :=
  if 200 ≤ statusCode ∧ statusCode < 300 then
    if responseData = "" then
      .ok ⟨statusCode, BodyVal.json (Json.obj [])⟩
    else
      match parse responseData with
      | some parsed => .ok ⟨statusCode, BodyVal.json parsed⟩
      | none => .ok ⟨statusCode, BodyVal.text responseData⟩
  else
    .error ⟨statusCode, responseData⟩

/-- The headers `makeRequest` sends (workflow-manager.js lines 33-43):
content type and content length are present exactly when a body is
truthy (a non-empty string), and the content length is the byte length
of the body (`Buffer.byteLength`, UTF-8 bytes). -/
structure ManagerHeaders where
  authorization : String
  accept : String
  userAgent : String
  contentType : Option String
  contentLength : Option Nat
deriving DecidableEq

/-- Builds the headers of `makeRequest` for a given token and optional
body string. -/
def makeRequestHeaders (token : String) (data : Option String) : ManagerHeaders :=
  match data with
  | some d =>
      if d.isEmpty then
        ⟨"token " ++ token, "application/vnd.github.v3+json",
          "Workflow-Manager/1.0.0", none, none⟩
      else
        ⟨"token " ++ token, "application/vnd.github.v3+json",
          "Workflow-Manager/1.0.0", some "application/json", some d.utf8ByteSize⟩
  | none =>
      ⟨"token " ++ token, "application/vnd.github.v3+json",
        "Workflow-Manager/1.0.0", none, none⟩

/-! ## Workflow dispatch (trigger-codeql script, triggerWorkflow) -/

/-- The resolved value of a successful dispatch,
`{ success: true, statusCode }` (trigger script line 192). -/
structure DispatchOk where
  success : Bool
  statusCode : Nat
deriving DecidableEq

/-- The `res.on(end)` handler of `triggerWorkflow` (trigger script lines
188-198): status 204 resolves with success, any other status rejects
with an error carrying that status and the response body. -/
def dispatchOutcome (statusCode : Nat) (responseData : String) :
    Except ApiError DispatchOk :=
  if statusCode = 204 then .ok ⟨true, statusCode⟩
  else .error ⟨statusCode, responseData⟩

/-- Whether an Except value is a success, used to phrase the success
condition of dispatch. -/
def exceptIsOk {ε α : Type} : Except ε α → Bool
  | .ok _ => true
  | .error _ => false

/-! ## List operation (workflow-manager.js, listWorkflows)

`listWorkflows` reads `response.data.workflows`, logs its `length` and
iterates it with `forEach`. The JS property and call semantics of those
two steps are modelled explicitly: reading `length` throws on undefined
or null, and `forEach` throws whenever the value is not an array (parsed
JSON never holds a function).
-/

/-- Where `listWorkflows` throws a TypeError. -/
inductive ThrowSite where
  | lengthRead
  | forEachCall
deriving DecidableEq

/-- An error surfaced by `listWorkflows`: either the rejected request or
a TypeError thrown in the handler. -/
inductive ListError where
  | api (e : ApiError)
  | typeErr (site : ThrowSite)

/-- Property read `d.workflows` on the resolved data: only a parsed JSON
object can carry the field; raw text or a non-object value gives
undefined (none). -/
def dataField (d : BodyVal) (key : String) : Option Json :=
  match d with
  | .json j => jsonField j key
  | .text _ => none

/-- Reading `v.length` in JS on a possibly-undefined value: undefined
and null throw a TypeError, a string or array has its length, an object
has its `length` field if any, and any other value gives undefined. -/
def readLength (v : Option Json) : Except ThrowSite (Option Json) :=
  match v with
  | none => .error ThrowSite.lengthRead
  | some Json.null => .error ThrowSite.lengthRead
  | some (Json.str s) => .ok (some (Json.num s.length))
  | some (Json.arr xs) => .ok (some (Json.num xs.length))
  | some (Json.obj fields) => .ok (lookupField fields "length")
  | some _ => .ok none

/-- `listWorkflows` (workflow-manager.js lines 123-145) with the
response injected: the request is completed by `handleResponse`; then
`response.data.workflows` is read, its `length` is read for the count
message, and the entries are iterated in order with `forEach`. The
returned list is the sequence of workflow entries enumerated, exactly
the parsed array. -/
def listWorkflows (parse : String → Option Json) (statusCode : Nat)
    (responseData : String) : Except ListError (List Json) :=
  match handleResponse parse statusCode responseData with
  | .error e => .error (ListError.api e)
  | .ok res =>
      let workflows := dataField res.data "workflows"
      match readLength workflows with
      | .error site => .error (ListError.typeErr site)
      | .ok _ =>
          match workflows with
          | some (Json.arr ws) => .ok ws
          | _ => .error (ListError.typeErr ThrowSite.forEachCall)

/-! ## Dispatch request construction (trigger-codeql script)

`triggerWorkflow(options)` destructures four options with defaults and
builds the POST payload
`\x7bref, inputs: \x7blanguages, queries, upload_sarif\x7d\x7d`, where
`upload_sarif` goes through `toString()`. An option value supplied by a
caller is a JS primitive, here a string or a boolean.
-/

/-- A primitive JS value a caller may supply as an option. -/
inductive JsPrim where
  | str (s : String)
  | bool (b : Bool)
deriving DecidableEq

/-- JS `toString()` on a primitive: a string is itself, a boolean
prints as true or false. -/
def jsToString : JsPrim → String
  | .str s => s
  | .bool b => if b then "true" else "false"

/-- A primitive as the JSON value JSON.stringify would serialize for
it when placed in an object verbatim. -/
def primToJson : JsPrim → Json
  | .str s => Json.str s
  | .bool b => Json.bool b

/-- The `options` argument of `triggerWorkflow`: each field is absent or
a supplied primitive; an absent field takes the destructuring default. -/
structure TriggerOptions where
  languages : Option JsPrim := none
  queries : Option JsPrim := none
  uploadSarif : Option JsPrim := none
  ref : Option JsPrim := none

/-- The object passed to JSON.stringify by `triggerWorkflow` (trigger
script lines 150-157), with the destructuring defaults of lines 143-148
filled in for absent options: `ref` and the three named inputs, where
`upload_sarif` is the `toString()` of the supplied value and the other
two are forwarded as they are. -/
def dispatchPayload (o : TriggerOptions) : Json :=
  let languages := o.languages.getD (JsPrim.str "javascript-typescript,actions")
  let queries := o.queries.getD (JsPrim.str "security-extended")
  let uploadSarif := o.uploadSarif.getD (JsPrim.bool true)
  let ref := o.ref.getD (JsPrim.str "main")
  Json.obj [("ref", primToJson ref),
    ("inputs", Json.obj [("languages", primToJson languages),
      ("queries", primToJson queries),
      ("upload_sarif", Json.str (jsToString uploadSarif))])]

/-- Reads one named input of the dispatch payload. -/
def dispatchInput (o : TriggerOptions) (key : String) : Option Json :=
  match jsonField (dispatchPayload o) "inputs" with
  | some inputs => jsonField inputs key
  | none => none

/-- JSON.stringify escaping of one character inside a string literal:
quote, backslash and the named control escapes, a u-escape for the other
control characters, and every other character verbatim. -/
def escapeChar (c : Char) : String :=
  if c = '"' then "\\\""
  else if c = '\\' then "\\\\"
  else if c = '\x08' then "\\b"
  else if c = '\x09' then "\\t"
  else if c = '\x0a' then "\\n"
  else if c = '\x0c' then "\\f"
  else if c = '\x0d' then "\\r"
  else if c.toNat < 32 then
    "\\u00" ++ String.singleton (Nat.digitChar (c.toNat / 16))
      ++ String.singleton (Nat.digitChar (c.toNat % 16))
  else String.singleton c

/-- JSON.stringify of a string value: quoted and escaped. -/
def quoteJson (s : String) : String :=
  "\"" ++ String.join (s.data.map escapeChar) ++ "\""

/-- JSON.stringify of a primitive placed verbatim in the payload. -/
def serializePrim : JsPrim → String
  | .str s => quoteJson s
  | .bool b => if b then "true" else "false"

/-- The `data` string of `triggerWorkflow`: JSON.stringify applied to
the payload object of lines 150-157, laid out in insertion order with
no whitespace, exactly as JSON.stringify renders that object literal. -/
def dispatchBody (o : TriggerOptions) : String :=
  let languages := o.languages.getD (JsPrim.str "javascript-typescript,actions")
  let queries := o.queries.getD (JsPrim.str "security-extended")
  let uploadSarif := o.uploadSarif.getD (JsPrim.bool true)
  let ref := o.ref.getD (JsPrim.str "main")
  "\x7b\"ref\":" ++ serializePrim ref
    ++ ",\"inputs\":\x7b\"languages\":" ++ serializePrim languages
    ++ ",\"queries\":" ++ serializePrim queries
    ++ ",\"upload_sarif\":" ++ quoteJson (jsToString uploadSarif)
    ++ "\x7d\x7d"

/-- The JS string `length` property: the number of UTF-16 code units,
two for a character beyond the basic multilingual plane, one otherwise.
This is what `data.length` evaluates to in the trigger script. -/
def utf16Length (s : String) : Nat :=
  s.data.foldl (fun n c => n + (if c.toNat < 65536 then 1 else 2)) 0

/-- The headers of the dispatch request (trigger script lines 164-170);
the content length is `data.length`, the UTF-16 code unit count of the
serialized body, not its byte length. -/
structure TriggerHeaders where
  authorization : String
  accept : String
  contentType : String
  contentLength : Nat
  userAgent : String
deriving DecidableEq

/-- The `requestOptions` object of `triggerWorkflow` (trigger script
lines 159-171). -/
structure TriggerRequestOptions where
  hostname : String
  port : Nat
  path : String
  method : String
  headers : TriggerHeaders
deriving DecidableEq

/-- Builds `requestOptions` for a token and the supplied options. -/
def triggerRequestOptions (token : String) (o : TriggerOptions) :
    TriggerRequestOptions :=
  { hostname := "api.github.com"
    port := 443
    path := "/repos/akhilesh1207/test-codeql/actions/workflows/codeql-manual.yml/dispatches"
    method := "POST"
    headers :=
      { authorization := "token " ++ token
        accept := "application/vnd.github.v3+json"
        contentType := "application/json"
        contentLength := utf16Length (dispatchBody o)
        userAgent := "CodeQL-Trigger/1.0.0" } }

/-! ## Concrete fixtures used by the theorems -/

/-- Options whose languages value holds a non-ASCII character. -/
def optsNonAscii : TriggerOptions := { languages := some (JsPrim.str "é") }

/-- Options supplying the upload flag as a boolean, as the CLI layer of
the trigger script does. -/
def optsBoolSarif : TriggerOptions := { uploadSarif := some (JsPrim.bool false) }

/-- Options supplying every field, with a boolean in the queries slot
and a string in the upload flag slot. -/
def optsAllSupplied : TriggerOptions :=
  { languages := some (JsPrim.str "python")
    queries := some (JsPrim.bool true)
    uploadSarif := some (JsPrim.str "false")
    ref := some (JsPrim.str "dev") }

/-- A parsed workflows listing with two entries, the shape the workflows
collection endpoint returns. -/
def fixtureListing : Json :=
  Json.obj [("total_count", Json.num 2),
    ("workflows", Json.arr
      [Json.obj [("name", Json.str "CodeQL")],
       Json.obj [("name", Json.str "CodeQL Manual")]])]

/-! ## Transport lemmas shared by the theorems -/

/-- A 2xx response with an empty body resolves with the empty object. -/
theorem handleResponse_ok_empty (parse : String → Option Json) (s : Nat)
    (h1 : 200 ≤ s) (h2 : s < 300) :
    handleResponse parse s "" = Except.ok ⟨s, BodyVal.json (Json.obj [])⟩ := by
  unfold handleResponse
  rw [if_pos ⟨h1, h2⟩, if_pos rfl]

/-- A 2xx response with a parseable non-empty body resolves with the
parsed value. -/
theorem handleResponse_ok_parsed (parse : String → Option Json) (s : Nat)
    (body : String) (j : Json) (h1 : 200 ≤ s) (h2 : s < 300)
    (hb : body ≠ "") (hp : parse body = some j) :
    handleResponse parse s body = Except.ok ⟨s, BodyVal.json j⟩ := by
  unfold handleResponse
  rw [if_pos ⟨h1, h2⟩, if_neg hb, hp]

/-- A 2xx response with a non-empty body that does not parse resolves
with the raw text. -/
theorem handleResponse_ok_raw (parse : String → Option Json) (s : Nat)
    (body : String) (h1 : 200 ≤ s) (h2 : s < 300)
    (hb : body ≠ "") (hp : parse body = none) :
    handleResponse parse s body = Except.ok ⟨s, BodyVal.text body⟩ := by
  unfold handleResponse
  rw [if_pos ⟨h1, h2⟩, if_neg hb, hp]

/-- A non-2xx response rejects with the status and raw body. -/
theorem handleResponse_err (parse : String → Option Json) (s : Nat)
    (body : String) (h : ¬(200 ≤ s ∧ s < 300)) :
    handleResponse parse s body = Except.error ⟨s, body⟩ := by
  unfold handleResponse
  rw [if_neg h]

/-! ## Claim theorems -/

/-- Claim C1: for every resolve of a file before publishing, a 404
response from the existence check yields the create path, an Except.ok
with no existing file and hence no concurrency token, while every other
non-2xx response is propagated upward as the same error and is never
treated as the file being absent. -/
theorem C1_resolve_404_creates_other_errors_propagate :
    ∀ (s : Nat) (b : String),
      resolveExisting (Except.error (ResolveError.api 404 b)) = Except.ok none ∧
      (s ≠ 404 → resolveExisting (Except.error (ResolveError.api s b))
        = Except.error (ResolveError.api s b)) := by
  intro s b
  refine ⟨rfl, ?_⟩
  intro h
  simp [resolveExisting, h]

/-- Witness for C1 at status 403: the existence-check error is
propagated unchanged. -/
theorem C1_witness :
    resolveExisting (Except.error (ResolveError.api 403 "forbidden"))
      = Except.error (ResolveError.api 403 "forbidden") :=
  (C1_resolve_404_creates_other_errors_propagate 403 "forbidden").2 (by decide)

/-- Claim C2: for every publish, when the resolve observed the file as
absent the PUT payload carries no sha field, and when the resolve
observed an existing file the payload carries exactly the sha returned
by that resolve call. -/
theorem C2_sha_roundtrip :
    ∀ (r : Except ResolveError ContentData) (content : String)
      (ef : Option ContentData),
      resolveExisting r = Except.ok ef →
        ((ef = none → (buildRequestData ef content).sha = none) ∧
         ∀ d, ef = some d →
           (buildRequestData ef content).sha = some d.sha ∧ r = Except.ok d) := by
  intro r content ef hr
  constructor
  · intro h
    subst h
    rfl
  · intro d hd
    subst hd
    refine ⟨rfl, ?_⟩
    cases r with
    | ok d2 =>
        simp [resolveExisting] at hr
        rw [hr]
    | error e =>
        cases e with
        | transport m => exact absurd hr (by simp [resolveExisting])
        | api s b =>
            by_cases h4 : s = 404
            · subst h4
              simp [resolveExisting] at hr
            · simp [resolveExisting, h4] at hr

/-- Witness for C2: a 404 resolve yields a payload without sha, and a
successful resolve yields a payload carrying exactly the returned sha. -/
theorem C2_witness :
    (buildRequestData none "Zm9v").sha = none ∧
    ((buildRequestData (some ⟨"a1b2"⟩) "Zm9v").sha = some "a1b2" ∧
      (Except.ok ⟨"a1b2"⟩ : Except ResolveError ContentData) = Except.ok ⟨"a1b2"⟩) :=
  ⟨(C2_sha_roundtrip (Except.error (ResolveError.api 404 "nf")) "Zm9v" none rfl).1 rfl,
   (C2_sha_roundtrip (Except.ok ⟨"a1b2"⟩) "Zm9v" (some ⟨"a1b2"⟩) rfl).2 ⟨"a1b2"⟩ rfl⟩

/-- Claim C3: dispatch succeeds exactly when the HTTP status is 204, and
any other status, including other 2xx statuses, rejects with an error
carrying that status and the response body. -/
theorem C3_dispatch_succeeds_iff_204 :
    ∀ (statusCode : Nat) (responseData : String),
      (exceptIsOk (dispatchOutcome statusCode responseData) = true ↔
        statusCode = 204) ∧
      (statusCode ≠ 204 →
        dispatchOutcome statusCode responseData
          = Except.error ⟨statusCode, responseData⟩) := by
  intro s b
  constructor
  · constructor
    · intro h
      by_contra hne
      simp [dispatchOutcome, hne, exceptIsOk] at h
    · intro h
      subst h
      rfl
  · intro h
    simp [dispatchOutcome, h]

/-- Witness for C3: status 204 succeeds, status 200 rejects with the
status and body. -/
theorem C3_witness :
    exceptIsOk (dispatchOutcome 204 "") = true ∧
    dispatchOutcome 200 "accepted" = Except.error ⟨200, "accepted"⟩ :=
  ⟨(C3_dispatch_succeeds_iff_204 204 "").1.mpr rfl,
   (C3_dispatch_succeeds_iff_204 200 "accepted").2 (by decide)⟩

/-- Counterexample for C4: a 2xx response with an empty body, as from a
204, resolves with the empty JSON object, not with the raw empty text
the claim states. -/
theorem C4_counterexample :
    handleResponse (fun _ => none) 204 ""
      = Except.ok ⟨204, BodyVal.json (Json.obj [])⟩ ∧
    handleResponse (fun _ => none) 204 "" ≠ Except.ok ⟨204, BodyVal.text ""⟩ :=
  ⟨rfl, fun h => BodyVal.noConfusion (congrArg HttpResult.data (Except.ok.inj h))⟩

/-- Claim C4 (amended): a 2xx response resolves with the status and a
body that is the empty JSON object when the response text is empty, the
JSON-parsed text when it is non-empty and parses, and the raw text
otherwise. -/
theorem C4_amended_2xx_resolution :
    ∀ (parse : String → Option Json) (statusCode : Nat) (responseData : String),
      200 ≤ statusCode → statusCode < 300 →
      (responseData = "" →
        handleResponse parse statusCode responseData
          = Except.ok ⟨statusCode, BodyVal.json (Json.obj [])⟩) ∧
      (∀ j, responseData ≠ "" → parse responseData = some j →
        handleResponse parse statusCode responseData
          = Except.ok ⟨statusCode, BodyVal.json j⟩) ∧
      (responseData ≠ "" → parse responseData = none →
        handleResponse parse statusCode responseData
          = Except.ok ⟨statusCode, BodyVal.text responseData⟩) := by
  intro parse s b h1 h2
  refine ⟨?_, ?_, ?_⟩
  · intro hb
    subst hb
    exact handleResponse_ok_empty parse s h1 h2
  · intro j hb hp
    exact handleResponse_ok_parsed parse s b j h1 h2 hb hp
  · intro hb hp
    exact handleResponse_ok_raw parse s b h1 h2 hb hp

/-- Witness for C4 (amended) covering the three resolution shapes at
status 200. -/
theorem C4_witness :
    handleResponse (fun _ => some (Json.num 1)) 200 ""
      = Except.ok ⟨200, BodyVal.json (Json.obj [])⟩ ∧
    handleResponse (fun _ => some (Json.num 1)) 200 "1"
      = Except.ok ⟨200, BodyVal.json (Json.num 1)⟩ ∧
    handleResponse (fun _ => none) 200 "not json"
      = Except.ok ⟨200, BodyVal.text "not json"⟩ :=
  ⟨(C4_amended_2xx_resolution (fun _ => some (Json.num 1)) 200 ""
      (by decide) (by decide)).1 rfl,
   (C4_amended_2xx_resolution (fun _ => some (Json.num 1)) 200 "1"
      (by decide) (by decide)).2.1 (Json.num 1) (by decide) rfl,
   (C4_amended_2xx_resolution (fun _ => none) 200 "not json"
      (by decide) (by decide)).2.2 (by decide) rfl⟩

/-- Claim C5: in every publish run the resolve call is issued first and
a PUT, when issued, comes strictly after it; and when the resolve step
fails, with a transport failure or a non-404 error, no PUT is issued. -/
theorem C5_resolve_strictly_before_put :
    ∀ {α : Type} (r : Except ResolveError ContentData) (c : String)
      (put : RequestData → Except ResolveError α),
      ((pushWorkflowRun r c put).1 = [NetEvent.getContent] ∨
        ∃ rd, (pushWorkflowRun r c put).1
          = [NetEvent.getContent, NetEvent.putContents rd]) ∧
      (∀ e, resolveExisting r = Except.error e →
        (pushWorkflowRun r c put).1 = [NetEvent.getContent]) := by
  intro α r c put
  constructor
  · cases hres : resolveExisting r with
    | error e =>
        left
        simp [pushWorkflowRun, hres]
    | ok ef =>
        right
        exact ⟨buildRequestData ef c, by simp [pushWorkflowRun, hres]⟩
  · intro e he
    simp [pushWorkflowRun, he]

/-- Witness for C5: a transport failure during resolve leaves only the
existence check in the trace, with no PUT issued. -/
theorem C5_witness :
    (pushWorkflowRun (Except.error (ResolveError.transport "connection reset"))
      "Zm9v" (fun _ => (Except.ok 0 : Except ResolveError Nat))).1
      = [NetEvent.getContent] :=
  (C5_resolve_strictly_before_put
    (Except.error (ResolveError.transport "connection reset")) "Zm9v"
    (fun _ => Except.ok 0)).2 (ResolveError.transport "connection reset") rfl

/-- Claim C6 (code bug evaluation): with a non-ASCII language option the
dispatch request sets the content-length header to the UTF-16 code unit
count of the serialized body, 93, while the UTF-8 byte length of that
body is 94; the manager transport, given the same body, would set 94,
the byte length. -/
theorem C6_contentLength_mismatch :
    (triggerRequestOptions "t0ken" optsNonAscii).headers.contentLength = 93 ∧
    (dispatchBody optsNonAscii).utf8ByteSize = 94 ∧
    (triggerRequestOptions "t0ken" optsNonAscii).headers.contentLength
      ≠ (dispatchBody optsNonAscii).utf8ByteSize ∧
    (makeRequestHeaders "t0ken" (some (dispatchBody optsNonAscii))).contentLength
      = some 94 := by
  refine ⟨rfl, by decide, by decide, by decide⟩

/-- Counterexample for C7: supplying the upload flag as the boolean
false, the payload carries the string form, not the supplied boolean
value unchanged. -/
theorem C7_counterexample :
    optsBoolSarif.uploadSarif = some (JsPrim.bool false) ∧
    dispatchInput optsBoolSarif "upload_sarif" = some (Json.str "false") ∧
    dispatchInput optsBoolSarif "upload_sarif"
      ≠ some (primToJson (JsPrim.bool false)) :=
  ⟨rfl, rfl, fun h => Json.noConfusion (Option.some.inj h)⟩

/-- Claim C7 (amended): the languages and queries inputs are forwarded
verbatim as JSON values, string or boolean alike; the upload flag is
sent as the string form of its value, so a supplied string passes
unchanged while a supplied boolean becomes the string true or false; no
other validation or transformation is applied beyond defaults for
absent parameters. -/
theorem C7_amended_inputs_forwarding :
    ∀ (o : TriggerOptions),
      (∀ v, o.languages = some v →
        dispatchInput o "languages" = some (primToJson v)) ∧
      (∀ v, o.queries = some v →
        dispatchInput o "queries" = some (primToJson v)) ∧
      (∀ v, o.uploadSarif = some v →
        dispatchInput o "upload_sarif" = some (Json.str (jsToString v))) ∧
      (∀ s, o.uploadSarif = some (JsPrim.str s) →
        dispatchInput o "upload_sarif" = some (Json.str s)) := by
  intro o
  obtain ⟨l, q, u, rf⟩ := o
  refine ⟨?_, ?_, ?_, ?_⟩
  · intro v hv
    have h2 : l = some v := hv
    subst h2
    rfl
  · intro v hv
    have h2 : q = some v := hv
    subst h2
    rfl
  · intro v hv
    have h2 : u = some v := hv
    subst h2
    rfl
  · intro s hv
    have h2 : u = some (JsPrim.str s) := hv
    subst h2
    rfl

/-- Witness for C7 (amended): concrete supplied values, including a
boolean in the queries slot forwarded verbatim as a JSON boolean and a
string upload flag passing unchanged. -/
theorem C7_witness :
    dispatchInput optsAllSupplied "languages" = some (Json.str "python") ∧
    dispatchInput optsAllSupplied "queries" = some (Json.bool true) ∧
    dispatchInput optsAllSupplied "upload_sarif" = some (Json.str "false") :=
  ⟨(C7_amended_inputs_forwarding optsAllSupplied).1 (JsPrim.str "python") rfl,
   (C7_amended_inputs_forwarding optsAllSupplied).2.1 (JsPrim.bool true) rfl,
   (C7_amended_inputs_forwarding optsAllSupplied).2.2.2 "false" rfl⟩

/-- Claim C8: a response with status 401 or 403 makes the manager
transport, the dispatch trigger and the publisher existence check fail
with an error that preserves the original status and body, never
converted to a different status and never a success. -/
theorem C8_auth_errors_preserve_status :
    ∀ (parse : String → Option Json) (statusCode : Nat) (body : String),
      statusCode = 401 ∨ statusCode = 403 →
        handleResponse parse statusCode body = Except.error ⟨statusCode, body⟩ ∧
        dispatchOutcome statusCode body = Except.error ⟨statusCode, body⟩ ∧
        resolveExisting (Except.error (ResolveError.api statusCode body))
          = Except.error (ResolveError.api statusCode body) := by
  intro parse s b h
  rcases h with h | h <;> subst h <;> exact ⟨rfl, rfl, rfl⟩

/-- Witness for C8 at status 401. -/
theorem C8_witness :
    handleResponse (fun _ => none) 401 "Bad credentials"
      = Except.error ⟨401, "Bad credentials"⟩ ∧
    dispatchOutcome 401 "Bad credentials" = Except.error ⟨401, "Bad credentials"⟩ ∧
    resolveExisting (Except.error (ResolveError.api 401 "Bad credentials"))
      = Except.error (ResolveError.api 401 "Bad credentials") :=
  C8_auth_errors_preserve_status (fun _ => none) 401 "Bad credentials" (Or.inl rfl)

/-- Claim C10: invoked with no options, the dispatch trigger posts
exactly the defaults, ref main and the inputs languages
javascript-typescript,actions, queries security-extended and
upload_sarif as the string form of the default boolean true, both as a
payload object and as the serialized body. -/
theorem C10_dispatch_defaults :
    dispatchPayload {} = Json.obj [("ref", Json.str "main"),
      ("inputs", Json.obj
        [("languages", Json.str "javascript-typescript,actions"),
         ("queries", Json.str "security-extended"),
         ("upload_sarif", Json.str "true")])] ∧
    dispatchBody {} =
      "\x7b\"ref\":\"main\",\"inputs\":\x7b\"languages\":\"javascript-typescript,actions\",\"queries\":\"security-extended\",\"upload_sarif\":\"true\"\x7d\x7d" :=
  ⟨rfl, rfl⟩

/-- Claim C9: for a 2xx response whose body is empty or parses to JSON
with no workflows field, the list operation throws while reading the
length of the workflows field instead of returning an empty sequence;
and the operation returns without error exactly when the body holds a
workflows array, in which case it returns that array itself, preserving
its length and order. -/
theorem C9_list_requires_workflows_array :
    ∀ (parse : String → Option Json) (statusCode : Nat),
      200 ≤ statusCode → statusCode < 300 →
      (listWorkflows parse statusCode ""
        = Except.error (ListError.typeErr ThrowSite.lengthRead)) ∧
      (∀ body j, body ≠ "" → parse body = some j →
        jsonField j "workflows" = none →
        listWorkflows parse statusCode body
          = Except.error (ListError.typeErr ThrowSite.lengthRead)) ∧
      (∀ body j ws, body ≠ "" → parse body = some j →
        jsonField j "workflows" = some (Json.arr ws) →
        listWorkflows parse statusCode body = Except.ok ws) ∧
      (∀ body ws, listWorkflows parse statusCode body = Except.ok ws →
        ∃ j, parse body = some j ∧ jsonField j "workflows" = some (Json.arr ws)) := by
  intro parse s h1 h2
  refine ⟨?_, ?_, ?_, ?_⟩
  · have he := handleResponse_ok_empty parse s h1 h2
    simp [listWorkflows, he, dataField, jsonField, lookupField, readLength]
  · intro body j hb hp hw
    have hh := handleResponse_ok_parsed parse s body j h1 h2 hb hp
    simp [listWorkflows, hh, dataField, hw, readLength]
  · intro body j ws hb hp hw
    have hh := handleResponse_ok_parsed parse s body j h1 h2 hb hp
    simp [listWorkflows, hh, dataField, hw, readLength]
  · intro body ws hws
    by_cases hb : body = ""
    · subst hb
      have he := handleResponse_ok_empty parse s h1 h2
      simp [listWorkflows, he, dataField, jsonField, lookupField, readLength] at hws
    · cases hp : parse body with
      | none =>
          have hh := handleResponse_ok_raw parse s body h1 h2 hb hp
          simp [listWorkflows, hh, dataField, readLength] at hws
      | some j =>
          have hh := handleResponse_ok_parsed parse s body j h1 h2 hb hp
          refine ⟨j, rfl, ?_⟩
          cases hw : jsonField j "workflows" with
          | none =>
              simp [listWorkflows, hh, dataField, hw, readLength] at hws
          | some w =>
              cases w with
              | null =>
                  simp [listWorkflows, hh, dataField, hw, readLength] at hws
              | bool b2 =>
                  simp [listWorkflows, hh, dataField, hw, readLength] at hws
              | num n =>
                  simp [listWorkflows, hh, dataField, hw, readLength] at hws
              | str s2 =>
                  simp [listWorkflows, hh, dataField, hw, readLength] at hws
              | obj fs =>
                  simp [listWorkflows, hh, dataField, hw, readLength] at hws
              | arr xs =>
                  simp [listWorkflows, hh, dataField, hw, readLength] at hws
                  rw [hws]

/-- Witness for C9: an empty 2xx body throws at the length read, and a
two-entry fixture listing is returned with both entries in order. -/
theorem C9_witness :
    listWorkflows (fun _ => none) 200 ""
      = Except.error (ListError.typeErr ThrowSite.lengthRead) ∧
    listWorkflows (fun _ => some fixtureListing) 200 "fixture"
      = Except.ok [Json.obj [("name", Json.str "CodeQL")],
                   Json.obj [("name", Json.str "CodeQL Manual")]] :=
  ⟨(C9_list_requires_workflows_array (fun _ => none) 200
      (by decide) (by decide)).1,
   (C9_list_requires_workflows_array (fun _ => some fixtureListing) 200
      (by decide) (by decide)).2.2.1 "fixture" fixtureListing
      [Json.obj [("name", Json.str "CodeQL")],
       Json.obj [("name", Json.str "CodeQL Manual")]]
      (by decide) rfl rfl⟩
